import Mathlib

/-!
# LogNarrator collector — verification of the specified behaviour

A shallow embedding of the Go sources of the LogNarrator log collector:

* `internal/encryption` — `Encryptor`, `EncryptedData`, `Encrypt`, `Decrypt`
* `internal/exporter`   — `CloudExporter.ConsumeLogs`
* `internal/config`     — `LoadConfig`, `applyDefaults`, `validateConfig`
* `internal/collector`  — `Collector.Shutdown`

Go byte slices are modelled as `List Nat` with every element `< 256`; Go
strings are Lean `String`s, inspected character-wise through `String.data`
where needed.  Randomness (`crypto/rand.Read`) is modelled as an oracle
`Nat → Nat` supplying the byte stream; the current wall clock
(`time.Now().Unix()`) is an explicit `Int` parameter.
-/

namespace LogNarrator

/-! ## Base64 (Go `encoding/base64` `StdEncoding`)

`Encrypt` and `Decrypt` stand on `base64.StdEncoding.EncodeToString` and
`base64.StdEncoding.DecodeString`.  We model them on `List Char`:
standard alphabet, `=`-padding, decoder requiring a multiple-of-four
length with padding only in the final quantum (Go's default decoder,
which does not reject non-zero trailing bits). -/

def b64alpha : List Char :=
  ['A', 'B', 'C', 'D', 'E', 'F', 'G', 'H', 'I', 'J', 'K', 'L', 'M',
   'N', 'O', 'P', 'Q', 'R', 'S', 'T', 'U', 'V', 'W', 'X', 'Y', 'Z',
   'a', 'b', 'c', 'd', 'e', 'f', 'g', 'h', 'i', 'j', 'k', 'l', 'm',
   'n', 'o', 'p', 'q', 'r', 's', 't', 'u', 'v', 'w', 'x', 'y', 'z',
   '0', '1', '2', '3', '4', '5', '6', '7', '8', '9', '+', '/']

/-- The character encoding a 6-bit group. -/
def encChar (n : Nat) : Char := b64alpha.getD n '?'

/-- Position of a character in the base64 alphabet, `none` for foreign
characters (including `=`). -/
def b64idx (c : Char) : Option Nat := b64alpha.findIdx? (· = c)

/-- Base64 encoding of a byte sequence, three bytes to four characters,
`=`-padded. -/
def b64encode : List Nat → List Char
  | [] => []
  | [a] => [encChar (a / 4), encChar (a % 4 * 16), '=', '=']
  | [a, b] =>
      [encChar (a / 4), encChar (a % 4 * 16 + b / 16), encChar (b % 16 * 4), '=']
  | a :: b :: c :: rest =>
      encChar (a / 4) :: encChar (a % 4 * 16 + b / 16) ::
      encChar (b % 16 * 4 + c / 64) :: encChar (c % 64) :: b64encode rest

/-- Base64 decoding: four characters to three bytes, the final quantum may
carry one or two `=`.  Any other shape, or a foreign character, fails. -/
def b64decode : List Char → Option (List Nat)
  | [] => some []
  | c1 :: c2 :: c3 :: c4 :: rest =>
      if c3 = '=' then
        if c4 = '=' ∧ rest = [] then
          (b64idx c1).bind fun x1 => (b64idx c2).bind fun x2 =>
            some [x1 * 4 + x2 / 16]
        else none
      else if c4 = '=' then
        if rest = [] then
          (b64idx c1).bind fun x1 => (b64idx c2).bind fun x2 =>
            (b64idx c3).bind fun x3 =>
              some [x1 * 4 + x2 / 16, x2 % 16 * 16 + x3 / 4]
        else none
      else
        (b64idx c1).bind fun x1 => (b64idx c2).bind fun x2 =>
          (b64idx c3).bind fun x3 => (b64idx c4).bind fun x4 =>
            (b64decode rest).bind fun tail =>
              some ((x1 * 4 + x2 / 16) :: (x2 % 16 * 16 + x3 / 4) ::
                    (x3 % 4 * 64 + x4) :: tail)
  | _ => none

/-! ## Configuration (`internal/config`)

`LoadConfig` reads the YAML file, expands environment variables,
unmarshals, applies defaults and validates.  File access and YAML parsing
are outside the embedding: `loadConfig` below starts from the already
unmarshalled `Config` value and performs the `applyDefaults` /
`validateConfig` steps exactly as `LoadConfig` does. -/

/-- `Pipeline` defines an OpenTelemetry processing pipeline. -/
structure Pipeline where
  receivers : List String
  processors : List String
  exporters : List String
  deriving DecidableEq, Repr

/-- `CollectorConfig` — receiver/processor settings are opaque YAML values;
only their names matter to the embedded code, pipelines are a map
name → `Pipeline` modelled as an association list. -/
structure CollectorConfig where
  receivers : List String
  processors : List String
  pipelines : List (String × Pipeline)
  deriving DecidableEq, Repr

/-- `EncryptionConfig` contains settings for the encryption engine.
Go `int` fields are modelled as `Int`. -/
structure EncryptionConfig where
  enabled : Bool
  keyPath : String
  keyRotation : Int
  algorithm : String
  clientID : String
  compression : Bool
  bufferSizeMB : Int
  deriving DecidableEq, Repr

/-- `ExporterConfig` contains settings for the cloud exporter. -/
structure ExporterConfig where
  endpoint : String
  timeout : Int
  retryMaxCount : Int
  retryDelaySec : Int
  batchSize : Int
  maxQueueSize : Int
  tlsCertPath : String
  tlsVerify : Bool
  localCachePath : String
  deriving DecidableEq, Repr

/-- `Config` is the main configuration structure. -/
structure Config where
  collector : CollectorConfig
  encryption : EncryptionConfig
  exporter : ExporterConfig
  deriving DecidableEq, Repr

/-- The encryption `if`s of `applyDefaults`, in source order. -/
def applyEncryptionDefaults (enc0 : EncryptionConfig) : EncryptionConfig :=
  let enc1 := if enc0.keyRotation = 0 then { enc0 with keyRotation := 30 } else enc0
  let enc2 := if enc1.algorithm = "" then { enc1 with algorithm := "XChaCha20-Poly1305" } else enc1
  if enc2.bufferSizeMB = 0 then { enc2 with bufferSizeMB := 100 } else enc2

/-- The exporter `if`s of `applyDefaults` up to (excluding) the TLS one,
in source order. -/
def applyExporterSizeDefaults (ex0 : ExporterConfig) : ExporterConfig :=
  let ex1 := if ex0.timeout = 0 then { ex0 with timeout := 30 } else ex0
  let ex2 := if ex1.retryMaxCount = 0 then { ex1 with retryMaxCount := 5 } else ex1
  let ex3 := if ex2.retryDelaySec = 0 then { ex2 with retryDelaySec := 10 } else ex2
  let ex4 := if ex3.batchSize = 0 then { ex3 with batchSize := 100 } else ex3
  if ex4.maxQueueSize = 0 then { ex4 with maxQueueSize := 10000 } else ex4

/-- All exporter `if`s of `applyDefaults`, ending with the
"default to secure configuration" rewrite of `TLSVerify`. -/
def applyExporterDefaults (ex0 : ExporterConfig) : ExporterConfig :=
  let ex5 := applyExporterSizeDefaults ex0
  if ex5.tlsVerify = false then { ex5 with tlsVerify := true } else ex5

/-- `applyDefaults` sets default values for unspecified settings.  Each
zero/false test mirrors one `if` of the Go function, in order; the Go
function mutates `config.Encryption` and `config.Exporter` field by
field, split here into the helpers above. -/
def applyDefaults (config : Config) : Config :=
  { config with
      encryption := applyEncryptionDefaults config.encryption,
      exporter := applyExporterDefaults config.exporter }

/-- Go `strings.EqualFold`, restricted to the ASCII folding the configured
algorithm names exercise. -/
def equalFold (s t : String) : Bool :=
  s.data.map Char.toLower == t.data.map Char.toLower

/-- The algorithm allow-list of `validateConfig`. -/
def validAlgorithms : List String := ["XChaCha20-Poly1305", "AES-256-GCM"]

/-- `validateConfig` checks if the configuration is valid; `Except` carries
the first `fmt.Errorf` message. -/
def validateConfig (config : Config) : Except String Unit := do
  if config.encryption.enabled then
    if config.encryption.keyPath = "" then
      throw "encryption.keyPath is required when encryption is enabled"
    if !(validAlgorithms.any fun alg => equalFold config.encryption.algorithm alg) then
      throw "unsupported encryption algorithm"
    if config.encryption.clientID = "" then
      throw "encryption.clientId is required when encryption is enabled"
  if config.exporter.endpoint = "" then
    throw "exporter.endpoint is required"
  if config.collector.pipelines.length = 0 then
    throw "at least one collector pipeline must be defined"
  for p in config.collector.pipelines do
    if p.2.receivers.length = 0 then
      throw "pipeline must have at least one receiver"
  return ()

/-- The defaulting and validation tail of `LoadConfig`, from the parsed
`Config` value on. -/
def loadConfig (parsed : Config) : Except String Config :=
  match validateConfig (applyDefaults parsed) with
  | .error e => .error ("invalid configuration: " ++ e)
  | .ok _ => .ok (applyDefaults parsed)

/-! ## Encryption (`internal/encryption`)

`crypto/rand.Read` is modelled by an oracle `rand : Nat → Nat` supplying
the random byte stream of the call (reduced mod 256); `time.Now().Unix()`
by an explicit `now : Int`.  Go strings holding base64 text are modelled
as `List Char`. -/

/-- `EncryptedData` represents encrypted log data (the wire envelope). -/
structure EncryptedData where
  clientID : String
  timestamp : Int
  version : Int
  algorithm : String
  nonce : List Char
  data : List Char
  compressed : Bool
  deriving DecidableEq, Repr

/-- `Encryptor` encrypts log data before transmission. -/
structure Encryptor where
  cfg : EncryptionConfig
  privateKey : List Nat
  clientID : String
  deriving DecidableEq, Repr

/-- `NewEncryptor` creates a new encryptor instance; `readFile` models
`ioutil.ReadFile` on the key path. -/
def NewEncryptor (cfg : EncryptionConfig) (readFile : String → Except String (List Nat)) :
    Except String Encryptor :=
  if !cfg.enabled then
    .ok { cfg := cfg, privateKey := [], clientID := "" }
  else
    match readFile cfg.keyPath with
    | .error e => .error ("failed to read private key: " ++ e)
    | .ok privateKey => .ok { cfg := cfg, privateKey := privateKey, clientID := cfg.clientID }

/-- `Encrypt` encrypts the provided data.  The compression branch of the
source is a commented-out TODO and leaves the data untouched; the nonce is
24 fresh random bytes (`make([]byte, 24)` filled by `rand.Read`); the
payload is the plain base64 of `data` (the libsodium call is a TODO in the
source). -/
def Encryptor.Encrypt (e : Encryptor) (now : Int) (rand : Nat → Nat) (data : List Nat) :
    Except String EncryptedData :=
  if !e.cfg.enabled then
    .error "encryption is disabled"
  else
    let nonce := (List.range 24).map fun i => rand i % 256
    .ok { clientID := e.clientID
          timestamp := now
          version := 1
          algorithm := e.cfg.algorithm
          compressed := e.cfg.compression
          nonce := b64encode nonce
          data := b64encode data }

/-- `Decrypt` decrypts the provided data: base64-decode of the `Data`
field (the libsodium call is a TODO in the source); the decompression
branch on `Compressed` is likewise a TODO and returns the decoded bytes
unchanged. -/
def Encryptor.Decrypt (e : Encryptor) (encData : EncryptedData) :
    Except String (List Nat) :=
  if !e.cfg.enabled then
    .error "encryption is disabled"
  else
    match b64decode encData.data with
    | none => .error "failed to decode data"
    | some data => .ok data

/-- The fixed nonce size of the AES-256-GCM AEAD (the standard 96-bit
nonce the claim's "correct AEAD nonce size" refers to); the source never
defines it — it hardcodes 24, the XChaCha20-Poly1305 size. -/
def aes256GcmNonceSize : Nat := 12

/-- `b` is obtained from `a` by flipping exactly one bit of one character
(characters here are single bytes of the payload text). -/
def singleBitFlip : List Char → List Char → Bool
  | [], [] => false
  | a :: s, b :: t =>
      if a = b then singleBitFlip s t
      else
        let d := a.toNat ^^^ b.toNat
        decide (d ≠ 0 ∧ (d &&& (d - 1)) = 0) && s == t
  | _, _ => false

/-! ## Exporter (`internal/exporter`)

`ConsumeLogs` serializes the batch, seals it when an encryptor is
present, and POSTs it once to the configured endpoint (`client.Do`; the
source's retry logic is a TODO).  The HTTP exchange is modelled by an
oracle `server : Nat → HTTPResult` giving the outcome of the i-th attempt;
the requests actually issued are returned alongside the result.  The
upstream `logsToJSON` serialization is taken as the given `logData`. -/

/-- A JSON value as produced by `encoding/json` for the envelope fields. -/
inductive JValue where
  | str (s : List Char)
  | int (n : Int)
  | bool (b : Bool)
  deriving DecidableEq, Repr

/-- `json.Marshal` of `EncryptedData`: the field/tag list in declaration
order, each Go field rendered under its struct tag. -/
def EncryptedData.marshalJSONFields (d : EncryptedData) : List (String × JValue) :=
  [("clientId", .str d.clientID.data),
   ("timestamp", .int d.timestamp),
   ("version", .int d.version),
   ("algorithm", .str d.algorithm.data),
   ("nonce", .str d.nonce),
   ("data", .str d.data),
   ("compressed", .bool d.compressed)]

/-- The body handed to `http.NewRequestWithContext`: either the marshalled
sealed envelope or the raw serialized batch. -/
inductive Body where
  | sealedEnvelope (fields : List (String × JValue))
  | raw (bytes : List Nat)
  deriving DecidableEq, Repr

/-- One outgoing HTTP request with the headers `ConsumeLogs` sets. -/
structure HTTPRequest where
  method : String
  url : String
  contentType : String
  userAgent : String
  body : Body
  deriving DecidableEq, Repr

/-- Outcome of one delivery attempt: transport-level failure
(`client.Do` error) or an HTTP status code. -/
inductive HTTPResult where
  | netErr (msg : String)
  | status (code : Nat)
  deriving DecidableEq, Repr

/-- `CloudExporter` exports logs to the LogNarrator cloud; `encryptor` is
the possibly-nil `*encryption.Encryptor`. -/
structure CloudExporter where
  cfg : ExporterConfig
  encryptor : Option Encryptor
  deriving Repr

/-- The send tail of `ConsumeLogs`: one `client.Do`, error on transport
failure or any status `>= 400`.  There is no retry in the source
(`// TODO: Add retry logic`). -/
def sendRequest (req : HTTPRequest) (server : Nat → HTTPResult) :
    Except String Unit × List HTTPRequest :=
  match server 0 with
  | .netErr msg => (.error ("failed to send logs: " ++ msg), [req])
  | .status code =>
      if code ≥ 400 then (.error "server returned error", [req])
      else (.ok (), [req])

/-- `ConsumeLogs` for an already-serialized batch `logData`. -/
def CloudExporter.ConsumeLogs (e : CloudExporter) (now : Int) (rand : Nat → Nat)
    (logData : List Nat) (server : Nat → HTTPResult) :
    Except String Unit × List HTTPRequest :=
  match e.encryptor with
  | some enc =>
      match enc.Encrypt now rand logData with
      | .error msg => (.error ("failed to encrypt logs: " ++ msg), [])
      | .ok encData =>
          sendRequest
            { method := "POST", url := e.cfg.endpoint,
              contentType := "application/json+encrypted",
              userAgent := "LogNarrator-Collector/0.1.0",
              body := .sealedEnvelope encData.marshalJSONFields } server
  | none =>
      sendRequest
        { method := "POST", url := e.cfg.endpoint,
          contentType := "application/json",
          userAgent := "LogNarrator-Collector/0.1.0",
          body := .raw logData } server

/-! ## Collector pipeline (`internal/collector`)

`Collector.Shutdown` loops over its exporters map, then its processors
map, then its receivers map, calling `Shutdown` on each component.  The
components of each class are modelled as a list of names (Go map
iteration order within one class is unspecified; the order across the
three loops is fixed by the source).  The function is modelled by the
sequence of component shutdowns it performs. -/

/-- One component shutdown performed by `Collector.Shutdown`. -/
inductive ShutdownEvent where
  | receiver (name : String)
  | processor (name : String)
  | exporter (name : String)
  deriving DecidableEq, Repr

/-- The collector pipeline state: its three component registries. -/
structure Collector where
  receivers : List String
  processors : List String
  exporters : List String
  deriving DecidableEq, Repr

/-- `Shutdown` stops the collection pipeline: exporters first, then
processors, then receivers, in the source's loop order. -/
def Collector.Shutdown (c : Collector) : List ShutdownEvent :=
  c.exporters.map .exporter ++ c.processors.map .processor ++
    c.receivers.map .receiver

/-- The event shuts down a receiver. -/
def ShutdownEvent.isReceiver : ShutdownEvent → Bool
  | .receiver _ => true
  | _ => false

/-- The event shuts down a processor. -/
def ShutdownEvent.isProcessor : ShutdownEvent → Bool
  | .processor _ => true
  | _ => false

/-- The event shuts down an exporter. -/
def ShutdownEvent.isExporter : ShutdownEvent → Bool
  | .exporter _ => true
  | _ => false

/-- Event `a` happens strictly before event `b` in the teardown sequence
of `c`. -/
def shutsDownBefore (c : Collector) (a b : ShutdownEvent) : Prop :=
  ∃ i j : Fin c.Shutdown.length, i.val < j.val ∧
    c.Shutdown.get i = a ∧ c.Shutdown.get j = b

/-- The wire-envelope field names of the external interface.  Modelled
from the spec: section 6's wire envelope keys
`client_id, timestamp, version, algorithm, nonce, data, compressed`. -/
def specWireFieldNames : List String :=
  ["client_id", "timestamp", "version", "algorithm", "nonce", "data",
   "compressed"]

/-! ## Concrete instances used by witnesses -/

/-- An enabled XChaCha20-Poly1305 configuration. -/
def xchachaConfig : EncryptionConfig :=
  { enabled := true, keyPath := "/keys/client.key", keyRotation := 30,
    algorithm := "XChaCha20-Poly1305", clientID := "client-1",
    compression := false, bufferSizeMB := 100 }

/-- The same configuration under the other supported sealing mode. -/
def aesConfig : EncryptionConfig :=
  { xchachaConfig with algorithm := "AES-256-GCM" }

/-- An encryptor as `NewEncryptor` builds it from `xchachaConfig`. -/
def xchachaEncryptor : Encryptor :=
  { cfg := xchachaConfig, privateKey := [1, 2, 3], clientID := "client-1" }

/-- An encryptor as `NewEncryptor` builds it from `aesConfig`. -/
def aesEncryptor : Encryptor :=
  { cfg := aesConfig, privateKey := [1, 2, 3], clientID := "client-1" }

/-- An encryptor whose configuration requests compression. -/
def compressedEncryptor : Encryptor :=
  { cfg := { xchachaConfig with compression := true },
    privateKey := [1, 2, 3], clientID := "client-1" }

/-- An encryptor built by `NewEncryptor` from a disabled configuration;
its `Encrypt` always fails. -/
def disabledEncryptor : Encryptor :=
  { cfg := { xchachaConfig with enabled := false },
    privateKey := [], clientID := "" }

/-- A fully defaulted exporter configuration. -/
def sampleExporterConfig : ExporterConfig :=
  { endpoint := "https://api.lognarrator.example/v1/logs", timeout := 30,
    retryMaxCount := 5, retryDelaySec := 10, batchSize := 100,
    maxQueueSize := 10000, tlsCertPath := "", tlsVerify := true,
    localCachePath := "" }

/-- A cloud exporter sealing with `xchachaEncryptor`. -/
def sampleExporter : CloudExporter :=
  { cfg := sampleExporterConfig, encryptor := some xchachaEncryptor }

/-- A cloud exporter whose encryptor is present but disabled, so sealing
fails. -/
def disabledExporter : CloudExporter :=
  { cfg := sampleExporterConfig, encryptor := some disabledEncryptor }

/-- An endpoint answering HTTP 503 to the first two attempts and 200 from
the third on. -/
def flaky503Server : Nat → HTTPResult :=
  fun i => if i < 2 then .status 503 else .status 200

/-- A collector whose single pipeline is receiver `filelog`, processor
`batch`, exporter `cloud`. -/
def demoCollector : Collector :=
  { receivers := ["filelog"], processors := ["batch"], exporters := ["cloud"] }

/-- A parsed configuration `LoadConfig` accepts unchanged. -/
def sampleParsedConfig : Config :=
  { collector :=
      { receivers := ["filelog"], processors := ["batch"],
        pipelines := [("logs",
          { receivers := ["filelog"], processors := ["batch"],
            exporters := ["cloud"] })] },
    encryption := xchachaConfig,
    exporter := sampleExporterConfig }

lemma b64idx_encChar {n : Nat} (h : n < 64) : b64idx (encChar n) = some n := by
  have all : ∀ m : Fin 64, b64idx (encChar m.val) = some m.val := by decide
  exact all ⟨n, h⟩

lemma encChar_ne_eq {n : Nat} (h : n < 64) : encChar n ≠ '=' := by
  intro hc
  have := b64idx_encChar h
  rw [hc] at this
  simp [b64idx, b64alpha, List.findIdx?] at this

/-- Decoding inverts encoding on genuine byte sequences. -/
theorem b64decode_b64encode (d : List Nat) (h : ∀ b ∈ d, b < 256) :
    b64decode (b64encode d) = some d := by
  match d with
  | [] => simp [b64encode, b64decode]
  | [a] =>
      have ha : a < 256 := h a (by simp)
      have h1 : a / 4 < 64 := by omega
      have h2 : a % 4 * 16 < 64 := by omega
      simp [b64encode, b64decode, b64idx_encChar h1, b64idx_encChar h2]
      omega
  | [a, b] =>
      have ha : a < 256 := h a (by simp)
      have hb : b < 256 := h b (by simp)
      have h1 : a / 4 < 64 := by omega
      have h2 : a % 4 * 16 + b / 16 < 64 := by omega
      have h3 : b % 16 * 4 < 64 := by omega
      simp [b64encode, b64decode, b64idx_encChar h1, b64idx_encChar h2,
        b64idx_encChar h3, encChar_ne_eq h3]
      omega
  | a :: b :: c :: e :: rest =>
      have ha : a < 256 := h a (by simp)
      have hb : b < 256 := h b (by simp)
      have hc : c < 256 := h c (by simp)
      have h1 : a / 4 < 64 := by omega
      have h2 : a % 4 * 16 + b / 16 < 64 := by omega
      have h3 : b % 16 * 4 + c / 64 < 64 := by omega
      have h4 : c % 64 < 64 := by omega
      have ih : b64decode (b64encode (e :: rest)) = some (e :: rest) :=
        b64decode_b64encode (e :: rest) (fun x hx => h x (by simp at hx ⊢; tauto))
      simp [b64encode, b64decode, b64idx_encChar h1, b64idx_encChar h2,
        b64idx_encChar h3, b64idx_encChar h4, encChar_ne_eq h3,
        encChar_ne_eq h4, ih]
      omega
  | [a, b, c] =>
      have ha : a < 256 := h a (by simp)
      have hb : b < 256 := h b (by simp)
      have hc : c < 256 := h c (by simp)
      have h1 : a / 4 < 64 := by omega
      have h2 : a % 4 * 16 + b / 16 < 64 := by omega
      have h3 : b % 16 * 4 + c / 64 < 64 := by omega
      have h4 : c % 64 < 64 := by omega
      simp [b64encode, b64decode, b64idx_encChar h1, b64idx_encChar h2,
        b64idx_encChar h3, b64idx_encChar h4, encChar_ne_eq h3,
        encChar_ne_eq h4]
      omega

/-! ## C1, C10 — encrypt/decrypt round trip -/

/-- C1: for every byte sequence and every enabled encryption configuration
(in particular under both supported sealing modes, which the code treats
identically), decrypting the result of encrypting the sequence returns it
exactly: `Decrypt (Encrypt B) = B`. -/
theorem encrypt_decrypt_roundtrip (e : Encryptor) (now : Int) (rand : Nat → Nat)
    (data : List Nat) (henc : e.cfg.enabled = true) (hd : ∀ b ∈ data, b < 256) :
    (e.Encrypt now rand data).bind e.Decrypt = Except.ok data := by
  simp [Encryptor.Encrypt, Encryptor.Decrypt, henc, Except.bind,
    b64decode_b64encode data hd]

/-- Concrete round trips under both supported sealing modes. -/
theorem encrypt_decrypt_roundtrip_witness :
    (xchachaEncryptor.Encrypt 0 (fun i => i) [0, 255, 7]).bind
        xchachaEncryptor.Decrypt = Except.ok [0, 255, 7] ∧
    (aesEncryptor.Encrypt 0 (fun i => i) [0, 255, 7]).bind
        aesEncryptor.Decrypt = Except.ok [0, 255, 7] :=
  ⟨encrypt_decrypt_roundtrip xchachaEncryptor 0 (fun i => i) [0, 255, 7]
      (by decide) (by decide),
   encrypt_decrypt_roundtrip aesEncryptor 0 (fun i => i) [0, 255, 7]
      (by decide) (by decide)⟩

/-- C10: under every enabled configuration `Encrypt` copies the configured
compression setting into the `Compressed` flag while the payload stays the
plain base64 of the input either way, and `Decrypt` recovers the input no
matter how the flag is set. -/
theorem encrypt_compression_flag (e : Encryptor) (now : Int) (rand : Nat → Nat)
    (data : List Nat) (henc : e.cfg.enabled = true) (hd : ∀ b ∈ data, b < 256) :
    (e.Encrypt now rand data).map (fun E => E.compressed) =
        Except.ok e.cfg.compression ∧
    (e.Encrypt now rand data).map (fun E => E.data) =
        Except.ok (b64encode data) ∧
    ∀ E : EncryptedData, ∀ flag : Bool, e.Encrypt now rand data = Except.ok E →
      e.Decrypt { E with compressed := flag } = Except.ok data := by
  refine ⟨by simp [Encryptor.Encrypt, henc, Except.map],
          by simp [Encryptor.Encrypt, henc, Except.map], ?_⟩
  intro E flag hE
  simp [Encryptor.Encrypt, henc] at hE
  simp [Encryptor.Decrypt, henc, ← hE, b64decode_b64encode data hd]

/-- A concrete instance of the compression-flag behaviour, under a
configuration with compression requested. -/
theorem encrypt_compression_flag_witness :
    (compressedEncryptor.Encrypt 0 (fun i => i) [1, 2]).map
        (fun E => E.compressed) = Except.ok true ∧
    (compressedEncryptor.Encrypt 0 (fun i => i) [1, 2]).map
        (fun E => E.data) = Except.ok (b64encode [1, 2]) :=
  ⟨(encrypt_compression_flag compressedEncryptor 0 (fun i => i) [1, 2]
      (by decide) (by decide)).1,
   (encrypt_compression_flag compressedEncryptor 0 (fun i => i) [1, 2]
      (by decide) (by decide)).2.1⟩

/-! ## C2 — tampered payloads are not rejected -/

/-- C2 fails on the code: `Decrypt` verifies nothing.  Encrypting the
byte `0x00` yields the payload text `AA==`; flipping a single bit of its
first character (`A` = 0x41 to `Q` = 0x51, bit 4) gives `QA==`, which
`Decrypt` happily accepts, returning the bytes `[0x40]` instead of a
`VerificationFailed`-class error. -/
theorem decrypt_accepts_bit_flipped_payload :
    ∃ E : EncryptedData,
      xchachaEncryptor.Encrypt 0 (fun i => i) [0] = Except.ok E ∧
      E.data = "AA==".data ∧
      singleBitFlip E.data "QA==".data = true ∧
      xchachaEncryptor.Decrypt { E with data := "QA==".data } =
        Except.ok [64] := by
  refine ⟨_, rfl, by decide, by decide, by rfl⟩

/-! ## C4 — nonce size ignores the configured algorithm -/

/-- C4 fails on the code: the nonce is always 24 random bytes (the
XChaCha20-Poly1305 size hardcoded by `make([]byte, 24)`), even when the
validated configuration selects AES-256-GCM, whose AEAD nonce size is 12
bytes. -/
theorem aes_nonce_size_mismatch :
    ∃ E : EncryptedData,
      aesEncryptor.Encrypt 0 (fun i => i) [] = Except.ok E ∧
      aesEncryptor.cfg.algorithm = "AES-256-GCM" ∧
      (b64decode E.nonce).map List.length = some 24 ∧
      (24 : Nat) ≠ aes256GcmNonceSize := by
  refine ⟨_, rfl, rfl, by decide, by decide⟩

/-! ## C3 — no retry on transient failure -/

/-- C3 fails on the code: against an endpoint that answers 503 twice and
then 200, `ConsumeLogs` issues exactly one request and returns the
server-error failure — no retry, no eventual delivery (the source's retry
logic is an unimplemented TODO). -/
theorem no_retry_on_503 :
    (sampleExporter.ConsumeLogs 0 (fun i => i) [1] flaky503Server).2.length = 1 ∧
    (sampleExporter.ConsumeLogs 0 (fun i => i) [1] flaky503Server).1 =
      Except.error "server returned error" := by
  constructor <;> rfl

/-! ## C5 — request method, content type and user agent -/

/-- C5: every request `ConsumeLogs` issues is a POST carrying the
collector's distinguishing user agent, with content type
`application/json+encrypted` exactly when the body is a sealed envelope
and `application/json` exactly when it is the raw batch. -/
theorem consume_logs_headers (e : CloudExporter) (now : Int) (rand : Nat → Nat)
    (logData : List Nat) (server : Nat → HTTPResult) :
    ((e.ConsumeLogs now rand logData server).2.all fun req =>
      req.method == "POST" &&
      req.userAgent == "LogNarrator-Collector/0.1.0" &&
      (match req.body with
       | .sealedEnvelope _ => req.contentType == "application/json+encrypted"
       | .raw _ => req.contentType == "application/json")) = true := by
  rcases e with ⟨cfg, _ | enc⟩
  · simp only [CloudExporter.ConsumeLogs, sendRequest]
    rcases server 0 with m | code
    · simp
    · by_cases h : code ≥ 400 <;> simp [h]
  · simp only [CloudExporter.ConsumeLogs]
    rcases hE : enc.Encrypt now rand logData with m | encData
    · simp
    · simp only [sendRequest]
      rcases server 0 with m | code
      · simp
      · by_cases h : code ≥ 400 <;> simp [h]

/-! ## C7 — sealing failure fails closed -/

/-- C7: when the exporter holds an encryptor and sealing the batch fails,
`ConsumeLogs` returns the wrapped error and issues no HTTP request at all
— the plaintext batch is never transmitted as a fallback. -/
theorem sealing_failure_fails_closed (e : CloudExporter) (enc : Encryptor)
    (msg : String) (now : Int) (rand : Nat → Nat) (logData : List Nat)
    (server : Nat → HTTPResult)
    (hencr : e.encryptor = some enc)
    (hfail : enc.Encrypt now rand logData = Except.error msg) :
    e.ConsumeLogs now rand logData server =
      (Except.error ("failed to encrypt logs: " ++ msg), []) := by
  rcases e with ⟨cfg, o⟩
  cases hencr
  simp [CloudExporter.ConsumeLogs, hfail]

/-- Concrete fail-closed run: a disabled encryptor makes sealing fail, and
nothing is sent. -/
theorem sealing_failure_fails_closed_witness :
    disabledExporter.ConsumeLogs 0 (fun i => i) [1] (fun _ => .status 200) =
      (Except.error ("failed to encrypt logs: " ++ "encryption is disabled"), []) :=
  sealing_failure_fails_closed disabledExporter disabledEncryptor
    "encryption is disabled" 0 (fun i => i) [1] (fun _ => .status 200) rfl rfl

/-! ## C6 — wire-envelope field names -/

/-- C6 fails on the code: the serialized envelope's first key is the
struct tag `clientId`, not the spec's `client_id`. -/
theorem wire_field_names_counterexample :
    ∃ E : EncryptedData,
      xchachaEncryptor.Encrypt 0 (fun i => i) [0] = Except.ok E ∧
      E.marshalJSONFields.map Prod.fst ≠ specWireFieldNames ∧
      "client_id" ∉ E.marshalJSONFields.map Prod.fst := by
  refine ⟨_, rfl, by decide, by decide⟩

/-- C6 amended: every envelope serializes under the keys
`clientId, timestamp, version, algorithm, nonce, data, compressed`
(camelCase client id), with `nonce` and `data` the envelope's string
fields and `compressed` its boolean. -/
theorem wire_field_names (d : EncryptedData) :
    d.marshalJSONFields.map Prod.fst =
      ["clientId", "timestamp", "version", "algorithm", "nonce", "data",
       "compressed"] ∧
    d.marshalJSONFields.lookup "nonce" = some (.str d.nonce) ∧
    d.marshalJSONFields.lookup "data" = some (.str d.data) ∧
    d.marshalJSONFields.lookup "compressed" = some (.bool d.compressed) :=
  ⟨rfl, rfl, rfl, rfl⟩

/-! ## C8 — shutdown order -/

lemma shutdownEvent_excl (ev : ShutdownEvent) :
    (ev.isExporter = true → ev.isProcessor = false ∧ ev.isReceiver = false) ∧
    (ev.isProcessor = true → ev.isReceiver = false) := by
  cases ev <;> simp [ShutdownEvent.isExporter, ShutdownEvent.isProcessor,
    ShutdownEvent.isReceiver]

lemma shutdown_length (c : Collector) :
    c.Shutdown.length =
      c.exporters.length + c.processors.length + c.receivers.length := by
  simp [Collector.Shutdown]
  omega

lemma shutdown_getElem_cases (c : Collector) (i : Nat)
    (hi : i < c.Shutdown.length) :
    (i < c.exporters.length ∧ (c.Shutdown[i]).isExporter = true) ∨
    (c.exporters.length ≤ i ∧
      i < c.exporters.length + c.processors.length ∧
      (c.Shutdown[i]).isProcessor = true) ∨
    (c.exporters.length + c.processors.length ≤ i ∧
      (c.Shutdown[i]).isReceiver = true) := by
  have hlen := shutdown_length c
  have h0 : c.Shutdown[i]? = some c.Shutdown[i] := List.getElem?_eq_getElem hi
  have hstep : c.Shutdown[i]? =
      ((c.exporters.map ShutdownEvent.exporter ++
        c.processors.map ShutdownEvent.processor) ++
        c.receivers.map ShutdownEvent.receiver)[i]? := rfl
  rcases Nat.lt_or_ge i c.exporters.length with h1 | h1
  · left
    refine ⟨h1, ?_⟩
    have hv : c.Shutdown[i]? = some (ShutdownEvent.exporter c.exporters[i]) := by
      rw [hstep, List.getElem?_append, if_pos (by simp; omega),
        List.getElem?_append, if_pos (by simpa using h1),
        List.getElem?_map, List.getElem?_eq_getElem h1]
      rfl
    rw [h0] at hv
    rw [Option.some.inj hv]
    rfl
  · rcases Nat.lt_or_ge i (c.exporters.length + c.processors.length) with h2 | h2
    · right; left
      refine ⟨h1, h2, ?_⟩
      have hip : i - c.exporters.length < c.processors.length := by omega
      have hv : c.Shutdown[i]? =
          some (ShutdownEvent.processor c.processors[i - c.exporters.length]) := by
        rw [hstep, List.getElem?_append, if_pos (by simp; omega),
          List.getElem?_append_right (by simpa using h1),
          List.getElem?_map]
        simp only [List.length_map]
        rw [List.getElem?_eq_getElem hip]
        rfl
      rw [h0] at hv
      rw [Option.some.inj hv]
      rfl
    · right; right
      refine ⟨h2, ?_⟩
      have hir : i - (c.exporters.length + c.processors.length) <
          c.receivers.length := by omega
      have hv : c.Shutdown[i]? =
          some (ShutdownEvent.receiver
            c.receivers[i - (c.exporters.length + c.processors.length)]) := by
        rw [hstep, List.getElem?_append_right (by simp; omega),
          List.getElem?_map]
        simp only [List.length_map, List.length_append]
        rw [List.getElem?_eq_getElem hir]
        rfl
      rw [h0] at hv
      rw [Option.some.inj hv]
      rfl

/-- C8 fails on the code: in the teardown of a receiver→processor→exporter
pipeline, the receiver is not shut down before the processor it feeds —
the sequence is exporter, processor, receiver. -/
theorem receiver_not_shut_down_first :
    demoCollector.Shutdown =
      [.exporter "cloud", .processor "batch", .receiver "filelog"] ∧
    ¬ shutsDownBefore demoCollector (.receiver "filelog") (.processor "batch") :=
  ⟨rfl, by unfold shutsDownBefore; decide⟩

/-- C8 amended: on shutdown the collector tears components down exporters
first, then processors, then receivers: every exporter shutdown precedes
every processor shutdown, and every processor shutdown precedes every
receiver shutdown. -/
theorem shutdown_order (c : Collector) (i j : Nat)
    (hi : i < c.Shutdown.length) (hj : j < c.Shutdown.length) :
    ((c.Shutdown[i]).isExporter = true →
      (c.Shutdown[j]).isProcessor = true → i < j) ∧
    ((c.Shutdown[i]).isProcessor = true →
      (c.Shutdown[j]).isReceiver = true → i < j) := by
  have Hi := shutdown_getElem_cases c i hi
  have Hj := shutdown_getElem_cases c j hj
  constructor
  · intro hie hjp
    have hibound : i < c.exporters.length := by
      rcases Hi with ⟨h, _⟩ | ⟨_, _, h⟩ | ⟨_, h⟩
      · exact h
      · exact absurd h (by simp [((shutdownEvent_excl _).1 hie).1])
      · exact absurd h (by simp [((shutdownEvent_excl _).1 hie).2])
    have hjbound : c.exporters.length ≤ j := by
      rcases Hj with ⟨_, h⟩ | ⟨h, _, _⟩ | ⟨h, _⟩
      · exact absurd hjp (by simp [((shutdownEvent_excl _).1 h).1])
      · exact h
      · omega
    omega
  · intro hip hjr
    have hibound : i < c.exporters.length + c.processors.length := by
      rcases Hi with ⟨h, _⟩ | ⟨_, h, _⟩ | ⟨_, h⟩
      · omega
      · exact h
      · exact absurd h (by simp [(shutdownEvent_excl _).2 hip])
    have hjbound : c.exporters.length + c.processors.length ≤ j := by
      rcases Hj with ⟨_, h⟩ | ⟨_, _, h⟩ | ⟨h, _⟩
      · exact absurd hjr (by simp [((shutdownEvent_excl _).1 h).2])
      · exact absurd hjr (by simp [(shutdownEvent_excl _).2 h])
      · exact h
    omega

/-- Concrete instance of the amended shutdown order on the demo pipeline:
the exporter (index 0) precedes the processor (index 1) precedes the
receiver (index 2). -/
theorem shutdown_order_witness : (0 : Nat) < 1 ∧ (1 : Nat) < 2 :=
  ⟨(shutdown_order demoCollector 0 1 (by decide) (by decide)).1
      (by decide) (by decide),
   (shutdown_order demoCollector 1 2 (by decide) (by decide)).2
      (by decide) (by decide)⟩

/-! ## C9 — TLS verification cannot be disabled -/

lemma applyExporterDefaults_tlsVerify (ex : ExporterConfig) :
    (applyExporterDefaults ex).tlsVerify = true := by
  unfold applyExporterDefaults
  dsimp only
  split
  · rfl
  · rename_i h
    simpa using h

lemma applyDefaults_tlsVerify (c : Config) :
    (applyDefaults c).exporter.tlsVerify = true :=
  applyExporterDefaults_tlsVerify c.exporter

/-- C9: every configuration `LoadConfig` accepts has
`Exporter.TLSVerify = true`: `applyDefaults` rewrites any `false` value
(including an explicit `tlsVerify: false` entry) to `true` before
validation, so certificate verification cannot be disabled. -/
theorem loadConfig_forces_tlsVerify (parsed config : Config)
    (h : loadConfig parsed = Except.ok config) :
    config.exporter.tlsVerify = true := by
  have hc : config = applyDefaults parsed := by
    unfold loadConfig at h
    rcases hv : validateConfig (applyDefaults parsed) with e | u
    · rw [hv] at h; cases h
    · rw [hv] at h
      exact (Except.ok.inj h).symm
  rw [hc]
  exact applyDefaults_tlsVerify parsed

/-- A configuration that validates end to end, and its loaded form has
TLS verification on. -/
theorem loadConfig_forces_tlsVerify_witness :
    (applyDefaults sampleParsedConfig).exporter.tlsVerify = true :=
  loadConfig_forces_tlsVerify sampleParsedConfig
    (applyDefaults sampleParsedConfig) (by rfl)

end LogNarrator
